import Mathlib

/-!
Verification of the ThreadLoop seamless loop playback engines against their
natural-language specification.

Three engines are embedded:
* `LoopProcessor`  — the sample-accurate AudioWorklet processor
  (src/public/loop-processor.js), modelled over exact rationals.
* `WebAudioLooper` — the buffer-scheduling looper
  (the WebAudioLooper class of the player component), with the audio graph
  modelled as an explicit list of started sources.
* `NativeLooper`   — the crossfading native iOS engine
  (NativeAudioLooperImpl in src/native/ios), with the player queue modelled
  as a list of scheduled segments.

JavaScript and Swift doubles are modelled as rationals (exact arithmetic);
the crossfade gain curve, which uses trigonometric functions, is modelled
over the reals.
-/

namespace LoopProcessor

/-- JavaScript truncation toward zero of a number, as used by the builtin
remainder operator. -/
def jsTrunc (q : ℚ) : ℤ :=
  if 0 ≤ q then ⌊q⌋ else ⌈q⌉

/-- The JavaScript `%` operator on numbers: truncated remainder.
For a zero divisor JavaScript yields NaN; that case is mapped to 0 here and
never arises under the hypotheses of the theorems below. -/
def jsMod (a b : ℚ) : ℚ :=
  if b = 0 then 0 else a - b * (jsTrunc (a / b) : ℚ)

/-- Mathematical (floor) remainder on rationals: the "mod" of the
specification text, which for a positive modulus always lands in
the interval from 0 (inclusive) to the modulus (exclusive). -/
def ratMod (a b : ℚ) : ℚ :=
  a - b * (⌊a / b⌋ : ℚ)

/-- The decoded audio buffer as received by the worklet processor over the
message port: channel count, frame length and per-channel sample data. -/
structure AudioBufferData where
  numberOfChannels : ℕ
  length : ℕ
  channels : List (List ℚ)
deriving DecidableEq

/-- The mutable state of the LoopProcessor AudioWorklet processor
(src/public/loop-processor.js, constructor). -/
structure State where
  sampleRate : ℚ
  isPlaying : Bool
  isLooping : Bool
  playbackRate : ℚ
  volume : ℚ
  loopStartSample : ℚ
  loopEndSample : ℚ
  currentSample : ℚ
  audioBuffer : Option AudioBufferData
  bufferChannels : ℕ
  bufferLength : ℕ
deriving DecidableEq

/-- JavaScript array read with the `|| 0` guard of getInterpolatedSample:
an out-of-bounds or negative index yields 0. -/
def jsIndex (l : List ℚ) (i : ℤ) : ℚ :=
  if 0 ≤ i then l.getD i.toNat 0 else 0

/-- LoopProcessor.getInterpolatedSample (lines 159-170): linear
interpolation between two adjacent samples, returning 0 when no buffer is
loaded or the read index reaches bufferLength - 1. -/
def getInterpolatedSample (st : State) (sampleIndex : ℤ) (fraction : ℚ)
    (channel : ℕ) : ℚ :=
  match st.audioBuffer with
  | none => 0
  | some buf =>
      if (st.bufferLength : ℤ) - 1 ≤ sampleIndex then 0
      else
        let channelData := buf.channels.getD channel []
        let sample1 := jsIndex channelData sampleIndex
        let sample2 := jsIndex channelData (sampleIndex + 1)
        sample1 + (sample2 - sample1) * fraction

/-- One iteration of the per-sample loop in LoopProcessor.process
(lines 106-144): the returned state has the cursor advanced by the playback
rate, and the returned function gives the value written to each output
channel for this frame (the caller writes only channels below
channelCount; see process). -/
def processFrame (st : State) : State × (ℕ → ℚ) :=
  let currentSampleInt : ℤ := ⌊st.currentSample⌋
  let fraction : ℚ := st.currentSample - (currentSampleInt : ℚ)
  if st.isLooping = true ∧ 0 < st.loopEndSample ∧
      st.loopEndSample ≤ (currentSampleInt : ℚ) then
    let loopLength := st.loopEndSample - st.loopStartSample
    let newCursor :=
      st.loopStartSample + jsMod (st.currentSample - st.loopEndSample) loopLength
    let newSampleInt : ℤ := ⌊newCursor⌋
    let newFraction : ℚ := newCursor - (newSampleInt : ℚ)
    ({ st with currentSample := newCursor + st.playbackRate },
      fun channel => getInterpolatedSample st newSampleInt newFraction channel * st.volume)
  else if currentSampleInt < (st.bufferLength : ℤ) then
    ({ st with currentSample := st.currentSample + st.playbackRate },
      fun channel => getInterpolatedSample st currentSampleInt fraction channel * st.volume)
  else
    ({ st with currentSample := st.currentSample + st.playbackRate },
      fun _ => 0)

/-- The full per-sample loop of LoopProcessor.process over a block of n
output frames, collecting each written frame column. -/
def processBlock : State → ℕ → State × List (ℕ → ℚ)
  | st, 0 => (st, [])
  | st, n + 1 =>
      let r := processFrame st
      let rest := processBlock r.1 n
      (rest.1, r.2 :: rest.2)

/-- Writing one frame column into the output block: only channels below
channelCount are written, as the source loops over channelCount. -/
def writeFrameColumn (output : List (List ℚ)) (channelCount frameIdx : ℕ)
    (vals : ℕ → ℚ) : List (List ℚ) :=
  output.mapIdx fun ch col => if ch < channelCount then col.set frameIdx (vals ch) else col

/-- Writing a list of frame columns into the output block starting at a
given frame index. -/
def writeColumns : List (List ℚ) → ℕ → List (ℕ → ℚ) → ℕ → List (List ℚ)
  | output, _, [], _ => output
  | output, channelCount, c :: rest, frameIdx =>
      writeColumns (writeFrameColumn output channelCount frameIdx c) channelCount rest (frameIdx + 1)

/-- LoopProcessor.process (lines 96-157): the block-processing callback.
When not playing, no buffer is loaded, or the output has no channels, the
output block is returned untouched (the early return on line 100).
The periodic TIME_UPDATE message does not change the state and is omitted. -/
def process (st : State) (output : List (List ℚ)) : State × List (List ℚ) :=
  if st.isPlaying = false ∨ st.audioBuffer = none ∨ output.length = 0 then
    (st, output)
  else
    let outputLength := (output.headD []).length
    let channelCount := min output.length st.bufferChannels
    let r := processBlock st outputLength
    (r.1, writeColumns output channelCount r.2 0)

/-- LoopProcessor.seek (lines 81-83): clamp the requested sample into the
buffer range. -/
def seek (st : State) (sample : ℚ) : State :=
  { st with currentSample := max 0 (min sample ((st.bufferLength : ℚ) - 1)) }

/-- LoopProcessor.setLoopPoints (lines 85-88). -/
def setLoopPoints (st : State) (startSample endSample : ℚ) : State :=
  { st with loopStartSample := startSample, loopEndSample := endSample }

/-- The wrapped cursor position demanded by the specification:
loopStart plus the overshoot taken modulo the loop length
(mathematical mod). -/
def wrappedCursor (st : State) : ℚ :=
  st.loopStartSample +
    ratMod (st.currentSample - st.loopEndSample) (st.loopEndSample - st.loopStartSample)

/-- A concrete processor state for the C1 witness: loop region samples 2 to
4 and a cursor already half a sample past the loop end. -/
def c1State : State :=
  { sampleRate := 44100, isPlaying := true, isLooping := true,
    playbackRate := 1, volume := 1, loopStartSample := 2,
    loopEndSample := 4, currentSample := 9 / 2, audioBuffer := none,
    bufferChannels := 0, bufferLength := 0 }

/-- A concrete processor state for the C10 witness: paused, with a loaded
one-channel buffer of two frames. -/
def c10State : State :=
  { sampleRate := 44100, isPlaying := false, isLooping := false,
    playbackRate := 1, volume := 1, loopStartSample := 0,
    loopEndSample := 0, currentSample := 0,
    audioBuffer := some { numberOfChannels := 1, length := 2, channels := [[1, 2]] },
    bufferChannels := 1, bufferLength := 2 }

/-- A concrete processor state for the C6 witness: looping disabled and the
cursor already past the end of the loaded three-frame buffer. -/
def c6PState : State :=
  { sampleRate := 44100, isPlaying := true, isLooping := false,
    playbackRate := 1, volume := 1, loopStartSample := 0,
    loopEndSample := 0, currentSample := 5,
    audioBuffer := some { numberOfChannels := 1, length := 3, channels := [[1, 2, 3]] },
    bufferChannels := 1, bufferLength := 3 }

/-- A concrete processor state for the C8 witness: a four-frame buffer. -/
def c8PState : State :=
  { sampleRate := 44100, isPlaying := false, isLooping := false,
    playbackRate := 1, volume := 1, loopStartSample := 0,
    loopEndSample := 0, currentSample := 1, audioBuffer := none,
    bufferChannels := 0, bufferLength := 4 }

end LoopProcessor

namespace WebAudioLooper

/-- JavaScript Math.round: round half toward positive infinity. -/
def jsRound (q : ℚ) : ℤ := ⌊q + 1 / 2⌋

/-- One AudioBufferSourceNode that has been created and started: the engine
clock time it was scheduled to start at, the asset offset it plays from,
its scheduled duration in seconds, and whether stop was called on it. -/
structure Source where
  startAt : ℚ
  offset : ℚ
  duration : ℚ
  stopped : Bool
deriving DecidableEq, Inhabited

/-- The mutable state of the WebAudioLooper class, with the audio graph
modelled explicitly: scheduled is the list of every source started so far,
and currentSource and nextSource are the indices of the sources the class
holds a reference to (they are the only ones pause can stop). The boolean
fields hasContext, hasBuffer and hasGain model whether audioContext,
audioBuffer and gainNode are non-null. -/
structure State where
  hasContext : Bool
  hasBuffer : Bool
  hasGain : Bool
  bufferDuration : ℚ
  startTime : ℚ
  pausedAt : ℚ
  isPlaying : Bool
  loopStart : ℚ
  loopEnd : ℚ
  playbackRate : ℚ
  isLooping : Bool
  nextStartTime : ℚ
  loopStartSample : ℤ
  loopEndSample : ℤ
  loopDurationSamples : ℤ
  sampleRate : ℚ
  scheduleAheadTime : ℚ
  schedulingActive : Bool
  scheduled : List Source
  currentSource : Option ℕ
  nextSource : Option ℕ
deriving DecidableEq

/-- createSource (lines 62-70) succeeds exactly when audioContext,
audioBuffer and gainNode are all present. -/
def canCreateSource (st : State) : Bool :=
  st.hasContext && st.hasBuffer && st.hasGain

/-- The exact loop duration in seconds, computed only from the sample
count, the sample rate and the playback rate (line 142). -/
def exactLoopDurationSeconds (st : State) : ℚ :=
  (st.loopDurationSamples : ℚ) / (st.sampleRate * st.playbackRate)

/-- The while loop of scheduleBuffersAhead (lines 145-154), with explicit
fuel: while nextStartTime is inside the lookahead window, start one source
at nextStartTime covering the loop region for the exact loop duration d,
then advance nextStartTime by exactly d. -/
def scheduleWhile (d now : ℚ) : ℕ → State → State
  | 0, st => st
  | fuel + 1, st =>
      if st.nextStartTime < now + st.scheduleAheadTime then
        if canCreateSource st = true then
          scheduleWhile d now fuel
            { st with
                scheduled :=
                  st.scheduled ++ [⟨st.nextStartTime, st.loopStart, d, false⟩],
                nextStartTime := st.nextStartTime + d }
        else scheduleWhile d now fuel st
      else st

/-- WebAudioLooper.scheduleBuffersAhead (lines 138-160): one invocation of
the scheduling step, reading the engine clock once as now. The trailing
requestAnimationFrame re-invocation is driven externally and not part of
the state change. -/
def scheduleBuffersAhead (fuel : ℕ) (now : ℚ) (st : State) : State :=
  if st.hasContext = false ∨ st.schedulingActive = false then st
  else scheduleWhile (exactLoopDurationSeconds st) now fuel st

/-- WebAudioLooper.getCurrentTime (lines 98-111). The JavaScript remainder
on the two integers is truncated division remainder. -/
def getCurrentTime (now : ℚ) (st : State) : ℚ :=
  if st.hasContext = false ∨ st.isPlaying = false then st.pausedAt
  else if st.isLooping = true ∧ st.loopStart < st.loopEnd then
    let elapsedAudioTime := now - st.startTime
    let elapsedSamples : ℤ := ⌊elapsedAudioTime * st.sampleRate * st.playbackRate⌋
    let positionInLoopSamples : ℤ := Int.tmod elapsedSamples st.loopDurationSamples
    let currentSample : ℤ := st.loopStartSample + positionInLoopSamples
    (currentSample : ℚ) / st.sampleRate
  else st.pausedAt + (now - st.startTime) * st.playbackRate

/-- Mark the source at index i as stopped. -/
def markStopped : List Source → ℕ → List Source
  | [], _ => []
  | s :: rest, 0 => { s with stopped := true } :: rest
  | s :: rest, i + 1 => s :: markStopped rest i

/-- Stop the referenced source, if any (the stop calls in pause). -/
def stopSource (st : State) : Option ℕ → State
  | none => st
  | some i => { st with scheduled := markStopped st.scheduled i }

/-- WebAudioLooper.pause (lines 204-223): deactivate the scheduling loop,
stop the tracked currentSource and nextSource (and only those), then
record the paused position; getCurrentTime is read before isPlaying is
cleared, as in the source. -/
def pause (now : ℚ) (st : State) : State :=
  let st1 := { st with schedulingActive := false }
  let st2 := { stopSource st1 st1.currentSource with currentSource := none }
  let st3 := { stopSource st2 st2.nextSource with nextSource := none }
  { st3 with pausedAt := getCurrentTime now st3, isPlaying := false }

/-- WebAudioLooper.startSampleAccurateLoop (lines 121-136): initialize the
lookahead horizon, activate scheduling, run one scheduling step, then set
startTime from the (already advanced) nextStartTime, as the source does. -/
def startSampleAccurateLoop (fuel : ℕ) (now : ℚ) (st : State) : State :=
  if st.hasContext = false ∨ st.isLooping = false ∨ st.hasBuffer = false then st
  else
    let st1 := { st with
      nextStartTime := now + st.scheduleAheadTime, schedulingActive := true }
    let st2 := scheduleBuffersAhead fuel now st1
    { st2 with startTime := st2.nextStartTime, pausedAt := st2.loopStart }

/-- WebAudioLooper.play (lines 170-202): looping playback goes through the
sample-accurate scheduler; non-looping playback starts a single tracked
source from the paused offset for the remainder of the asset. -/
def play (fuel : ℕ) (now : ℚ) (st : State) : State :=
  if st.hasContext = false ∨ st.hasBuffer = false then st
  else
    let st1 := { st with isPlaying := true }
    if st1.isLooping = true ∧ st1.loopStart < st1.loopEnd then
      startSampleAccurateLoop fuel now st1
    else if canCreateSource st1 = false then st1
    else
      { st1 with
          scheduled :=
            st1.scheduled ++
              [⟨now, st1.pausedAt, st1.bufferDuration - st1.pausedAt, false⟩],
          currentSource := some st1.scheduled.length,
          startTime := now }

/-- The onended handler installed on the non-looping source
(lines 193-197): clear isPlaying, reset the paused position to 0 and emit
the ended notification; the second component counts the notifications
emitted, which is one per invocation, and the platform invokes the handler
exactly once per finished source. -/
def onendedHandler (st : State) : State × ℕ :=
  ({ st with isPlaying := false, pausedAt := 0 }, 1)

/-- WebAudioLooper.seek (lines 113-118): pause if playing, store the
requested time as the paused position unchanged, resume if it was
playing. -/
def seek (fuel : ℕ) (now : ℚ) (time : ℚ) (st : State) : State :=
  let wasPlaying := st.isPlaying
  let st1 := if wasPlaying = true then pause now st else st
  let st2 := { st1 with pausedAt := time }
  if wasPlaying = true then play fuel now st2 else st2

/-- WebAudioLooper.setLoopPoints (lines 72-80). -/
def setLoopPoints (start stop : ℚ) (st : State) : State :=
  let loopStartSample := jsRound (start * st.sampleRate)
  let loopEndSample := jsRound (stop * st.sampleRate)
  { st with
      loopStart := start, loopEnd := stop,
      loopStartSample := loopStartSample, loopEndSample := loopEndSample,
      loopDurationSamples := loopEndSample - loopStartSample }

/-- Witness state for C3: the horizon is already filled. -/
def c3State : State :=
  { hasContext := true, hasBuffer := true, hasGain := true,
    bufferDuration := 10, startTime := 0, pausedAt := 0, isPlaying := true,
    loopStart := 0, loopEnd := 1, playbackRate := 1, isLooping := true,
    nextStartTime := 1, loopStartSample := 0, loopEndSample := 44100,
    loopDurationSamples := 44100, sampleRate := 44100,
    scheduleAheadTime := 1 / 10, schedulingActive := true, scheduled := [],
    currentSource := none, nextSource := none }

/-- Failing input for C4: an idle looper with a loaded one-second loop,
before play is pressed. -/
def c4State : State :=
  { hasContext := true, hasBuffer := true, hasGain := true,
    bufferDuration := 10, startTime := 0, pausedAt := 0, isPlaying := false,
    loopStart := 0, loopEnd := 1, playbackRate := 1, isLooping := true,
    nextStartTime := 0, loopStartSample := 0, loopEndSample := 44100,
    loopDurationSamples := 44100, sampleRate := 44100,
    scheduleAheadTime := 1 / 10, schedulingActive := false, scheduled := [],
    currentSource := none, nextSource := none }

/-- The C4 trace after pressing play at engine time 0 and letting the
scheduling step run at engine time 1/50: exactly one loop segment has been
started, covering engine times 1/10 to 11/10. -/
def c4Scheduled : State := scheduleBuffersAhead 4 (1 / 50) (play 4 0 c4State)

/-- The C4 trace after pausing at engine time 3/20, while the scheduled
segment is in flight. -/
def c4Paused : State := pause (3 / 20) c4Scheduled

/-- Witness state for the C6 engine half: a playing non-looping source. -/
def c6WState : State :=
  { hasContext := true, hasBuffer := true, hasGain := true,
    bufferDuration := 10, startTime := 0, pausedAt := 3, isPlaying := true,
    loopStart := 0, loopEnd := 0, playbackRate := 1, isLooping := false,
    nextStartTime := 0, loopStartSample := 0, loopEndSample := 0,
    loopDurationSamples := 0, sampleRate := 44100,
    scheduleAheadTime := 1 / 10, schedulingActive := false,
    scheduled := [⟨0, 0, 10, false⟩], currentSource := some 0,
    nextSource := none }

/-- Counterexample state for C8: a paused buffer-scheduling looper. -/
def c8WState : State :=
  { hasContext := true, hasBuffer := true, hasGain := true,
    bufferDuration := 10, startTime := 0, pausedAt := 5, isPlaying := false,
    loopStart := 0, loopEnd := 0, playbackRate := 1, isLooping := false,
    nextStartTime := 0, loopStartSample := 0, loopEndSample := 0,
    loopDurationSamples := 0, sampleRate := 44100,
    scheduleAheadTime := 1 / 10, schedulingActive := false, scheduled := [],
    currentSource := none, nextSource := none }

end WebAudioLooper

namespace NativeLooper

/-- Swift integer conversion from Double: truncation toward zero. -/
def swiftInt (q : ℚ) : ℤ :=
  if 0 ≤ q then ⌊q⌋ else ⌈q⌉

/-- One entry of the AVAudioPlayerNode schedule: a file segment or the
synthesized crossfade buffer, identified by its first frame in the asset
and its frame count. -/
structure Segment where
  startingFrame : ℤ
  frameCount : ℤ
  isCrossfade : Bool
deriving DecidableEq, Inhabited

/-- The state of NativeAudioLooperImpl: loaded file, loop points in
seconds, crossfade window, the time-pitch rate, and the player modelled as
its queue of scheduled segments plus a playhead frame position maintained
by the platform render thread (scheduling never reads it). -/
structure State where
  hasFile : Bool
  fileLength : ℤ
  sampleRate : ℚ
  loopStartSec : ℚ
  loopEndSec : ℚ
  crossfadeMs : ℚ
  isPlaying : Bool
  rate : ℚ
  pitch : ℚ
  queue : List Segment
  playerPlaying : Bool
  playheadFrame : ℤ
deriving DecidableEq

/-- The loop start frame: AVAudioFramePosition(loopStartSec * sampleRate)
in scheduleNextCycle (line 207). -/
def startFrameOf (st : State) : ℤ := swiftInt (st.loopStartSec * st.sampleRate)

/-- The loop end frame (line 208). -/
def endFrameOf (st : State) : ℤ := swiftInt (st.loopEndSec * st.sampleRate)

/-- totalFrames = endFrame - startFrame (line 209). -/
def totalFramesOf (st : State) : ℤ := endFrameOf st - startFrameOf st

/-- cfFrames = max(1, Int((crossfadeMs / 1000) * sampleRate)) (line 212). -/
def cfFramesOf (st : State) : ℤ :=
  max 1 (swiftInt ((st.crossfadeMs / 1000) * st.sampleRate))

/-- NativeAudioLooperImpl.scheduleNextCycle (lines 205-227): bail out when
no file is loaded or the loop is empty; on interrupt, player.stop clears
the queue; then the main segment (when nonempty) and the crossfade buffer
are appended. The completion handler chaining is event-driven and outside
the state change. -/
def scheduleNextCycle (interrupt : Bool) (st : State) : State :=
  if st.hasFile = false then st
  else if totalFramesOf st ≤ 0 then st
  else
    let mainFrames : ℤ := max 0 (totalFramesOf st - cfFramesOf st)
    let st1 := if interrupt = true then { st with queue := [], playerPlaying := false } else st
    let st2 :=
      if 0 < mainFrames then
        { st1 with queue := st1.queue ++ [⟨startFrameOf st, mainFrames, false⟩] }
      else st1
    { st2 with queue := st2.queue ++ [⟨startFrameOf st, cfFramesOf st, true⟩] }

/-- The clamped loop points written by setLoopPoints (lines 172-173). -/
def clampedLoop (start stop : ℚ) (st : State) : State :=
  let st1 := { st with loopStartSec := max 0 start }
  { st1 with loopEndSec := max st1.loopStartSec stop }

/-- NativeAudioLooperImpl.setLoopPoints (lines 171-175): clamp the loop
points, then reschedule immediately (with interrupt) when playing. -/
def setLoopPoints (start stop : ℚ) (st : State) : State :=
  let st1 := clampedLoop start stop st
  if st1.isPlaying = true then scheduleNextCycle true st1 else st1

/-- NativeAudioLooperImpl.setRate (line 177): clamp into the range
from 0.5 to 2. -/
def setRate (rate : ℚ) (st : State) : State :=
  { st with rate := max (1 / 2) (min 2 rate) }

/-- The clamp of scheduleAt (line 231): the requested time pulled into the
loop region. -/
def scheduleAtTarget (timeSec : ℚ) (st : State) : ℚ :=
  min (max timeSec st.loopStartSec) st.loopEndSec

/-- NativeAudioLooperImpl.scheduleAt (lines 229-253): stop the player,
schedule the tail of the loop from the clamped time, append the crossfade
buffer and restart. -/
def scheduleAt (timeSec : ℚ) (st : State) : State :=
  if st.hasFile = false then st
  else
    let t := scheduleAtTarget timeSec st
    let startFrame := swiftInt (t * st.sampleRate)
    let framesToEnd : ℤ := max 0 (endFrameOf st - startFrame - cfFramesOf st)
    let st1 := { st with queue := [], playerPlaying := false }
    let st2 :=
      if 0 < framesToEnd then
        { st1 with queue := st1.queue ++ [⟨startFrame, framesToEnd, false⟩] }
      else st1
    let st3 := { st2 with
      queue := st2.queue ++ ([⟨startFrameOf st, cfFramesOf st, true⟩] : List Segment) }
    { st3 with playerPlaying := true, isPlaying := true }

/-- NativeAudioLooperImpl.seek (lines 193-196): floor the requested time at
0, then schedule from it. -/
def seek (time : ℚ) (st : State) : State :=
  scheduleAt (max 0 time) st

/-- The position seconds at which seek resumes playback: the requested
time floored at 0 and clamped into the loop region. -/
def seekTargetSec (time : ℚ) (st : State) : ℚ :=
  scheduleAtTarget (max 0 time) st

/-- NativeAudioLooperImpl.pause (lines 188-191). -/
def pause (st : State) : State :=
  { st with isPlaying := false, playerPlaying := false }

/-- NativeAudioLooperImpl.play (lines 180-186). -/
def play (st : State) : State :=
  if st.isPlaying = true then st
  else
    let st1 := { st with isPlaying := true }
    let st2 := scheduleNextCycle true st1
    { st2 with playerPlaying := true }

/-- The equal-power crossfade buffer synthesized by makeCrossfadeBuffer
(lines 255-283), one channel: sample i of the cf-frame output blends the
loop tail (endData) and the loop head (startData) with squared cosine and
sine gains at blend position i / max(cf - 1, 1). -/
noncomputable def crossfadeSample (endData startData : ℕ → ℝ) (cf : ℕ)
    (i : ℕ) : ℝ :=
  let x : ℝ := (i : ℝ) / ((max (cf - 1) 1 : ℕ) : ℝ)
  let a : ℝ := Real.cos (Real.pi * (1 / 2) * x)
  let b : ℝ := Real.sin (Real.pi * (1 / 2) * x)
  endData i * a * a + startData i * b * b

/-- Counterexample state for C7: playing, with the playhead at frame
220500 (5 seconds at 44.1 kHz), loop about to be changed to the region
from 2 to 4 seconds. -/
def c7State : State :=
  { hasFile := true, fileLength := 441000, sampleRate := 44100,
    loopStartSec := 0, loopEndSec := 10, crossfadeMs := 8, isPlaying := true,
    rate := 1, pitch := 0, queue := [⟨0, 441000, false⟩],
    playerPlaying := true, playheadFrame := 220500 }

/-- Witness state for C9: an empty loop region (start equals end). -/
def c9State : State :=
  { hasFile := true, fileLength := 441000, sampleRate := 44100,
    loopStartSec := 3, loopEndSec := 3, crossfadeMs := 8, isPlaying := true,
    rate := 1, pitch := 0, queue := [], playerPlaying := true,
    playheadFrame := 0 }

/-- Witness state for C8: a loaded file of 100 frames at sample rate 10
with loop region from 1 to 2 seconds. -/
def c8NState : State :=
  { hasFile := true, fileLength := 100, sampleRate := 10,
    loopStartSec := 1, loopEndSec := 2, crossfadeMs := 8, isPlaying := true,
    rate := 1, pitch := 0, queue := [], playerPlaying := true,
    playheadFrame := 0 }

end NativeLooper

namespace LoopProcessor

theorem ratMod_eq_mul_fract (a b : ℚ) (hb : b ≠ 0) :
    ratMod a b = b * Int.fract (a / b) := by
  unfold ratMod
  rw [Int.fract]
  field_simp

theorem ratMod_nonneg (a b : ℚ) (hb : 0 < b) : 0 ≤ ratMod a b := by
  rw [ratMod_eq_mul_fract a b hb.ne.symm]
  exact mul_nonneg hb.le (Int.fract_nonneg _)

theorem ratMod_lt (a b : ℚ) (hb : 0 < b) : ratMod a b < b := by
  rw [ratMod_eq_mul_fract a b hb.ne.symm]
  calc b * Int.fract (a / b) < b * 1 :=
        (mul_lt_mul_left hb).2 (Int.fract_lt_one _)
    _ = b := mul_one b

theorem jsMod_eq_ratMod (a b : ℚ) (ha : 0 ≤ a) (hb : 0 < b) :
    jsMod a b = ratMod a b := by
  unfold jsMod ratMod jsTrunc
  rw [if_neg hb.ne.symm, if_pos (div_nonneg ha hb.le)]

theorem ratMod_self_of_lt (a b : ℚ) (h0 : 0 ≤ a) (hab : a < b) :
    ratMod a b = a := by
  have hb : 0 < b := lt_of_le_of_lt h0 hab
  have : ⌊a / b⌋ = 0 := by
    rw [Int.floor_eq_zero_iff]
    constructor
    · exact div_nonneg h0 hb.le
    · rw [div_lt_one hb]; exact hab
  unfold ratMod
  rw [this]
  push_cast
  ring

/-- C1: with looping enabled, nonnegative loop start, loopEnd greater than
loopStart, and the integer cursor at or past loopEnd, the per-frame step of
the sample-accurate processor wraps the cursor to
loopStart + ((cursor - loopEnd) mod loopLength): the wrapped position lies
in the loop region, its phase (offset from loopStart mod loopLength) equals
the overshoot (cursor - loopEnd) mod loopLength, and the output sample for
the frame is recomputed by interpolation at the wrapped position, scaled by
the volume. The post-frame cursor is the wrapped position advanced by the
playback rate. -/
theorem c1_loop_wrap_preserves_overshoot (st : State)
    (hLoop : st.isLooping = true)
    (hs : 0 ≤ st.loopStartSample)
    (hlt : st.loopStartSample < st.loopEndSample)
    (hc : st.loopEndSample ≤ (⌊st.currentSample⌋ : ℚ)) :
    (processFrame st).1.currentSample = wrappedCursor st + st.playbackRate ∧
    st.loopStartSample ≤ wrappedCursor st ∧
    wrappedCursor st < st.loopEndSample ∧
    ratMod (wrappedCursor st - st.loopStartSample)
        (st.loopEndSample - st.loopStartSample) =
      ratMod (st.currentSample - st.loopEndSample)
        (st.loopEndSample - st.loopStartSample) ∧
    ∀ channel, (processFrame st).2 channel =
      getInterpolatedSample st ⌊wrappedCursor st⌋
        (wrappedCursor st - (⌊wrappedCursor st⌋ : ℚ)) channel * st.volume := by
  have hfl : (⌊st.currentSample⌋ : ℚ) ≤ st.currentSample := Int.floor_le _
  have hE : 0 < st.loopEndSample := lt_of_le_of_lt hs hlt
  have hL : 0 < st.loopEndSample - st.loopStartSample := sub_pos.2 hlt
  have ha : 0 ≤ st.currentSample - st.loopEndSample :=
    sub_nonneg.2 (le_trans hc hfl)
  have hjs : jsMod (st.currentSample - st.loopEndSample)
      (st.loopEndSample - st.loopStartSample) =
      ratMod (st.currentSample - st.loopEndSample)
        (st.loopEndSample - st.loopStartSample) :=
    jsMod_eq_ratMod _ _ ha hL
  have hPF : processFrame st =
      ({ st with currentSample := wrappedCursor st + st.playbackRate },
        fun channel => getInterpolatedSample st ⌊wrappedCursor st⌋
          (wrappedCursor st - (⌊wrappedCursor st⌋ : ℚ)) channel * st.volume) := by
    simp only [processFrame]
    rw [if_pos ⟨hLoop, hE, hc⟩, hjs]
    rfl
  refine ⟨by rw [hPF], ?_, ?_, ?_, by intro channel; rw [hPF]⟩
  · unfold wrappedCursor
    exact le_add_of_nonneg_right (ratMod_nonneg _ _ hL)
  · unfold wrappedCursor
    have := ratMod_lt (st.currentSample - st.loopEndSample)
      (st.loopEndSample - st.loopStartSample) hL
    linarith
  · unfold wrappedCursor
    rw [add_sub_cancel_left]
    exact ratMod_self_of_lt _ _ (ratMod_nonneg _ _ hL) (ratMod_lt _ _ hL)

/-- Witness for C1 at the concrete state c1State. -/
theorem c1_loop_wrap_preserves_overshoot_witness :
    c1State.isLooping = true ∧
    0 ≤ c1State.loopStartSample ∧
    c1State.loopStartSample < c1State.loopEndSample ∧
    c1State.loopEndSample ≤ (⌊c1State.currentSample⌋ : ℚ) ∧
    ((processFrame c1State).1.currentSample =
        wrappedCursor c1State + c1State.playbackRate ∧
      c1State.loopStartSample ≤ wrappedCursor c1State ∧
      wrappedCursor c1State < c1State.loopEndSample ∧
      ratMod (wrappedCursor c1State - c1State.loopStartSample)
          (c1State.loopEndSample - c1State.loopStartSample) =
        ratMod (c1State.currentSample - c1State.loopEndSample)
          (c1State.loopEndSample - c1State.loopStartSample) ∧
      ∀ channel, (processFrame c1State).2 channel =
        getInterpolatedSample c1State ⌊wrappedCursor c1State⌋
          (wrappedCursor c1State - (⌊wrappedCursor c1State⌋ : ℚ)) channel *
          c1State.volume) :=
  ⟨by decide, by decide, by decide, by with_unfolding_all decide,
    c1_loop_wrap_preserves_overshoot c1State (by decide) (by decide)
      (by decide) (by with_unfolding_all decide)⟩

theorem jsIndex_nil (i : ℤ) : jsIndex [] i = 0 := by
  unfold jsIndex
  split
  · simp [List.getD]
  · rfl

theorem processFrame_silent (st : State)
    (hL : st.isLooping = false)
    (hc : (st.bufferLength : ℤ) ≤ ⌊st.currentSample⌋) :
    processFrame st =
      ({ st with currentSample := st.currentSample + st.playbackRate },
        fun _ => 0) := by
  have h1 : ¬(st.isLooping = true ∧ 0 < st.loopEndSample ∧
      st.loopEndSample ≤ ((⌊st.currentSample⌋ : ℤ) : ℚ)) := by
    rintro ⟨h, -, -⟩
    rw [hL] at h
    exact Bool.false_ne_true h
  have h2 : ¬(⌊st.currentSample⌋ < (st.bufferLength : ℤ)) := not_lt.2 hc
  simp only [processFrame]
  rw [if_neg h1, if_neg h2]

theorem processBlock_silent (st : State) (n : ℕ)
    (hL : st.isLooping = false) (hr : 0 ≤ st.playbackRate)
    (hc : (st.bufferLength : ℤ) ≤ ⌊st.currentSample⌋) (j channel : ℕ) :
    ((processBlock st n).2.getD j (fun _ => 0)) channel = 0 := by
  induction n generalizing st j with
  | zero => simp [processBlock]
  | succ n ih =>
      simp only [processBlock, processFrame_silent st hL hc]
      cases j with
      | zero => rfl
      | succ j =>
          simp only [List.getD_cons_succ]
          exact ih { st with currentSample := st.currentSample + st.playbackRate }
            hL hr
            (le_trans hc (Int.floor_le_floor (le_add_of_nonneg_right hr))) j

/-- C10: the block-processing callback is total by construction; when
playback is inactive, no buffer is loaded or the output has no channels it
returns the output block unmodified; and the per-sample interpolation
returns 0 whenever the buffer is absent, the read index is at or past
bufferLength - 1, or the addressed channel has no data — every sample read
is guarded, so no out-of-bounds access exists for any cursor value. -/
theorem c10_process_total_and_safe (st : State) (output : List (List ℚ))
    (sampleIndex : ℤ) (fraction : ℚ) (channel : ℕ)
    (hIdle : st.isPlaying = false ∨ st.audioBuffer = none ∨ output.length = 0)
    (hPast : st.audioBuffer = none ∨ (st.bufferLength : ℤ) - 1 ≤ sampleIndex) :
    process st output = (st, output) ∧
    getInterpolatedSample st sampleIndex fraction channel = 0 ∧
    (∀ buf, st.audioBuffer = some buf → buf.channels.length ≤ channel →
      ∀ i f, getInterpolatedSample st i f channel = 0) := by
  refine ⟨?_, ?_, ?_⟩
  · unfold process
    rw [if_pos hIdle]
  · rcases hPast with h | h
    · simp [getInterpolatedSample, h]
    · cases hb : st.audioBuffer with
      | none => simp [getInterpolatedSample, hb]
      | some buf => simp [getInterpolatedSample, hb, h]
  · intro buf hbuf hch i f
    have hnil : buf.channels.getD channel [] = [] :=
      List.getD_eq_default _ _ hch
    simp only [getInterpolatedSample, hbuf, hnil, jsIndex_nil]
    split
    · rfl
    · ring

/-- Witness for C10 at the concrete state c10State, a one-channel buffer,
an out-of-range read index and an absent channel. -/
theorem c10_process_total_and_safe_witness :
    (c10State.isPlaying = false ∨ c10State.audioBuffer = none ∨
      ([[5, 5]] : List (List ℚ)).length = 0) ∧
    (c10State.audioBuffer = none ∨ (c10State.bufferLength : ℤ) - 1 ≤ 3) ∧
    (process c10State [[5, 5]] = (c10State, [[5, 5]]) ∧
      getInterpolatedSample c10State 3 0 2 = 0 ∧
      (∀ buf, c10State.audioBuffer = some buf → buf.channels.length ≤ 2 →
        ∀ i f, getInterpolatedSample c10State i f 2 = 0)) :=
  ⟨by decide, by decide,
    c10_process_total_and_safe c10State [[5, 5]] 3 0 2 (by decide) (by decide)⟩

end LoopProcessor

namespace WebAudioLooper

theorem scheduleWhile_advances (d now : ℚ) :
    ∀ (fuel : ℕ) (st : State),
      ∃ k : ℕ,
        (scheduleWhile d now fuel st).scheduled.length =
          st.scheduled.length + k ∧
        (scheduleWhile d now fuel st).nextStartTime =
          st.nextStartTime + k * d
  | 0, st => ⟨0, by simp [scheduleWhile]⟩
  | fuel + 1, st => by
      rw [scheduleWhile]
      by_cases h : st.nextStartTime < now + st.scheduleAheadTime
      · rw [if_pos h]
        by_cases hcs : canCreateSource st = true
        · rw [if_pos hcs]
          obtain ⟨k, h1, h2⟩ := scheduleWhile_advances d now fuel
            { st with
                scheduled :=
                  st.scheduled ++ [⟨st.nextStartTime, st.loopStart, d, false⟩],
                nextStartTime := st.nextStartTime + d }
          refine ⟨k + 1, ?_, ?_⟩
          · simp only [List.length_append, List.length_singleton] at h1
            omega
          · rw [h2]
            push_cast
            ring
        · rw [if_neg hcs]
          exact scheduleWhile_advances d now fuel st
      · rw [if_neg h]
        exact ⟨0, by simp⟩

theorem scheduleBuffersAhead_inactive (fuel : ℕ) (now : ℚ) (st : State)
    (h : st.schedulingActive = false) :
    scheduleBuffersAhead fuel now st = st := by
  unfold scheduleBuffersAhead
  rw [if_pos (Or.inr h)]

/-- C2: every scheduling iteration advances nextStartTime by exactly the
loop duration in seconds, a quantity computed only from the loop sample
count, the sample rate and the playback rate; hence after a scheduling
step that schedules k further segments, nextStartTime equals its initial
value plus k times that exact duration, independent of the engine clock
reading now (no re-measured wall time, no cumulative drift). -/
theorem c2_nextStartTime_exact_advance (fuel : ℕ) (now : ℚ) (st : State) :
    exactLoopDurationSeconds st =
      (st.loopDurationSamples : ℚ) / (st.sampleRate * st.playbackRate) ∧
    ∃ k : ℕ,
      (scheduleBuffersAhead fuel now st).scheduled.length =
        st.scheduled.length + k ∧
      (scheduleBuffersAhead fuel now st).nextStartTime =
        st.nextStartTime + k * exactLoopDurationSeconds st := by
  refine ⟨rfl, ?_⟩
  unfold scheduleBuffersAhead
  by_cases hg : st.hasContext = false ∨ st.schedulingActive = false
  · rw [if_pos hg]
    exact ⟨0, by simp⟩
  · rw [if_neg hg]
    exact scheduleWhile_advances (exactLoopDurationSeconds st) now fuel st

/-- C3: when the lookahead horizon is already filled, a scheduling step
schedules nothing and leaves the whole state, in particular nextStartTime
and the list of scheduled sources, unchanged; repeating the step in that
state is likewise a no-op. -/
theorem c3_schedule_idempotent_when_horizon_filled
    (fuel fuel2 : ℕ) (now : ℚ) (st : State)
    (h : ¬ st.nextStartTime < now + st.scheduleAheadTime) :
    scheduleBuffersAhead fuel now st = st ∧
    scheduleBuffersAhead fuel2 now (scheduleBuffersAhead fuel now st) = st := by
  have key : ∀ f, scheduleBuffersAhead f now st = st := by
    intro f
    unfold scheduleBuffersAhead
    by_cases hg : st.hasContext = false ∨ st.schedulingActive = false
    · rw [if_pos hg]
    · rw [if_neg hg]
      cases f with
      | zero => rfl
      | succ f => rw [scheduleWhile, if_neg h]
  refine ⟨key fuel, ?_⟩
  rw [key fuel]
  exact key fuel2

/-- Witness for C3: with the horizon filled, two successive scheduling
steps leave the concrete state untouched. -/
theorem c3_schedule_idempotent_when_horizon_filled_witness :
    ¬ c3State.nextStartTime < (0 : ℚ) + c3State.scheduleAheadTime ∧
    (scheduleBuffersAhead 3 0 c3State = c3State ∧
      scheduleBuffersAhead 7 0 (scheduleBuffersAhead 3 0 c3State) = c3State) :=
  ⟨by with_unfolding_all decide,
    c3_schedule_idempotent_when_horizon_filled 3 7 0 c3State
      (by with_unfolding_all decide)⟩

/-- C4 names a real defect: the specification demands that pause stop all
in-flight and pending scheduled audio, but the sources started by the
look-ahead scheduling loop are local variables that the class never
retains, so pause can stop only currentSource and nextSource. Concretely:
after play and one scheduling step, exactly one loop segment is started,
covering engine times 1/10 to 11/10; pausing at time 3/20 deactivates
scheduling (and any further scheduling step is a no-op), yet the in-flight
segment is not stopped and keeps playing past the pause instant. -/
theorem c4_pause_leaves_lookahead_segment_playing :
    c4Scheduled.scheduled.length = 1 ∧
    (c4Scheduled.scheduled.getD 0 default).startAt = 1 / 10 ∧
    (c4Scheduled.scheduled.getD 0 default).duration = 1 ∧
    c4Paused.schedulingActive = false ∧
    c4Paused.isPlaying = false ∧
    (c4Paused.scheduled.getD 0 default).stopped = false ∧
    (c4Paused.scheduled.getD 0 default).startAt < 3 / 20 ∧
    (3 / 20 : ℚ) <
      (c4Paused.scheduled.getD 0 default).startAt +
        (c4Paused.scheduled.getD 0 default).duration ∧
    ∀ fuel now, scheduleBuffersAhead fuel now c4Paused = c4Paused := by
  refine ⟨?_, ?_, ?_, ?_, ?_, ?_, ?_, ?_, fun fuel now =>
    scheduleBuffersAhead_inactive fuel now c4Paused
      (by with_unfolding_all decide)⟩
  all_goals with_unfolding_all decide

end WebAudioLooper

namespace NativeLooper

/-- C5: the equal-power crossfade buffer of N frames (N at least 2)
satisfies, per channel and for every index i below N with blend position
x = i / (N - 1): out i equals endData i times cos squared of pi x / 2 plus
startData i times sin squared of pi x / 2; the two gains sum to 1 at every
x, out 0 equals endData 0, and out (N - 1) equals startData (N - 1). -/
theorem c5_equal_power_crossfade (endData startData : ℕ → ℝ) (N i : ℕ)
    (hN : 2 ≤ N) (hi : i < N) :
    crossfadeSample endData startData N i =
      endData i * Real.cos (Real.pi * ((i : ℝ) / ((N : ℝ) - 1)) / 2) ^ 2 +
        startData i * Real.sin (Real.pi * ((i : ℝ) / ((N : ℝ) - 1)) / 2) ^ 2 ∧
    Real.cos (Real.pi * ((i : ℝ) / ((N : ℝ) - 1)) / 2) ^ 2 +
      Real.sin (Real.pi * ((i : ℝ) / ((N : ℝ) - 1)) / 2) ^ 2 = 1 ∧
    crossfadeSample endData startData N 0 = endData 0 ∧
    crossfadeSample endData startData N (N - 1) = startData (N - 1) := by
  have h1N : 1 ≤ N := by omega
  have hmax : (max (N - 1) 1 : ℕ) = N - 1 := by omega
  have hcast : ((N - 1 : ℕ) : ℝ) = (N : ℝ) - 1 := by
    rw [Nat.cast_sub h1N, Nat.cast_one]
  have hne : ((N : ℝ) - 1) ≠ 0 := by
    have h2 : (2 : ℝ) ≤ (N : ℝ) := by exact_mod_cast hN
    linarith
  refine ⟨?_, Real.cos_sq_add_sin_sq _, ?_, ?_⟩
  · simp only [crossfadeSample]
    rw [hmax, hcast]
    have harg : Real.pi * (1 / 2) * ((i : ℝ) / ((N : ℝ) - 1)) =
        Real.pi * ((i : ℝ) / ((N : ℝ) - 1)) / 2 := by ring
    rw [harg]
    ring
  · simp [crossfadeSample]
  · simp only [crossfadeSample]
    rw [hmax]
    have hne2 : ((N - 1 : ℕ) : ℝ) ≠ 0 := by rw [hcast]; exact hne
    rw [div_self hne2]
    have harg : Real.pi * (1 / 2) * (1 : ℝ) = Real.pi / 2 := by ring
    rw [harg, Real.cos_pi_div_two, Real.sin_pi_div_two]
    ring

/-- Witness for C5 at a two-frame crossfade window, index 1, with constant
channel data. -/
theorem c5_equal_power_crossfade_witness :
    2 ≤ 2 ∧ 1 < 2 ∧
    (crossfadeSample (fun _ => (3 : ℝ)) (fun _ => (5 : ℝ)) 2 1 =
        (fun _ => (3 : ℝ)) 1 *
          Real.cos (Real.pi * (((1 : ℕ) : ℝ) / (((2 : ℕ) : ℝ) - 1)) / 2) ^ 2 +
        (fun _ => (5 : ℝ)) 1 *
          Real.sin (Real.pi * (((1 : ℕ) : ℝ) / (((2 : ℕ) : ℝ) - 1)) / 2) ^ 2 ∧
      Real.cos (Real.pi * (((1 : ℕ) : ℝ) / (((2 : ℕ) : ℝ) - 1)) / 2) ^ 2 +
        Real.sin (Real.pi * (((1 : ℕ) : ℝ) / (((2 : ℕ) : ℝ) - 1)) / 2) ^ 2 = 1 ∧
      crossfadeSample (fun _ => (3 : ℝ)) (fun _ => (5 : ℝ)) 2 0 =
        (fun _ => (3 : ℝ)) 0 ∧
      crossfadeSample (fun _ => (3 : ℝ)) (fun _ => (5 : ℝ)) 2 (2 - 1) =
        (fun _ => (5 : ℝ)) (2 - 1)) :=
  ⟨by norm_num, by norm_num,
    c5_equal_power_crossfade (fun _ => (3 : ℝ)) (fun _ => (5 : ℝ)) 2 1
      (by norm_num) (by norm_num)⟩

/-- C7 fails as stated: a loop-region change while playing does interrupt
the previous schedule, but the new schedule starts at the new loop start
frame, not at the current playback position. At the concrete state the
playhead is at frame 220500 while every rescheduled segment starts at
frame 88200. -/
theorem c7_counterexample_reschedules_from_loop_start :
    c7State.playheadFrame = 220500 ∧
    ((setLoopPoints 2 4 c7State).queue.getD 0 default).startingFrame = 88200 ∧
    ((setLoopPoints 2 4 c7State).queue.getD 0 default).startingFrame ≠
      c7State.playheadFrame ∧
    ∀ seg ∈ (setLoopPoints 2 4 c7State).queue,
      seg.startingFrame ≠ c7State.playheadFrame := by
  with_unfolding_all decide

theorem scheduleNextCycle_loop_fields (i : Bool) (st : State) :
    (scheduleNextCycle i st).loopStartSec = st.loopStartSec ∧
    (scheduleNextCycle i st).loopEndSec = st.loopEndSec := by
  unfold scheduleNextCycle
  split
  · exact ⟨rfl, rfl⟩
  split
  · exact ⟨rfl, rfl⟩
  refine ⟨?_, ?_⟩ <;>
    · dsimp only
      split <;> split <;> rfl

/-- C7 amended: a loop-region change while playing interrupts the
previously scheduled audio (the queue is discarded) and immediately
schedules the new loop region, starting from the new clamped loop start
frame — not from the current playback position. -/
theorem c7_loop_change_interrupts_and_reschedules (st : State) (s e : ℚ)
    (hPlay : st.isPlaying = true) (hFile : st.hasFile = true)
    (hFrames : 0 < totalFramesOf (clampedLoop s e st)) :
    (setLoopPoints s e st).queue.length ≤ 2 ∧
    ((setLoopPoints s e st).queue.getD 0 default).startingFrame =
      swiftInt (max 0 s * st.sampleRate) ∧
    (setLoopPoints s e st).loopStartSec = max 0 s ∧
    (setLoopPoints s e st).loopEndSec = max (max 0 s) e := by
  have hplay1 : (clampedLoop s e st).isPlaying = true := by
    simp [clampedLoop, hPlay]
  have hfile1 : ¬ (clampedLoop s e st).hasFile = false := by
    simp [clampedLoop, hFile]
  have hsr : (clampedLoop s e st).sampleRate = st.sampleRate := by
    simp [clampedLoop]
  have hls : (clampedLoop s e st).loopStartSec = max 0 s := by
    simp [clampedLoop]
  have hstart : startFrameOf (clampedLoop s e st) =
      swiftInt (max 0 s * st.sampleRate) := by
    unfold startFrameOf
    rw [hsr, hls]
  have hset : setLoopPoints s e st = scheduleNextCycle true (clampedLoop s e st) := by
    unfold setLoopPoints
    rw [if_pos hplay1]
  have hloop := scheduleNextCycle_loop_fields true (clampedLoop s e st)
  have hns : ¬ totalFramesOf (clampedLoop s e st) ≤ 0 := not_le.2 hFrames
  refine ⟨?_, ?_, ?_, ?_⟩
  · rw [hset]
    unfold scheduleNextCycle
    rw [if_neg hfile1, if_neg hns, if_pos rfl]
    dsimp only
    split <;> simp
  · rw [hset]
    unfold scheduleNextCycle
    rw [if_neg hfile1, if_neg hns, if_pos rfl]
    dsimp only
    split <;> simp [hstart]
  · rw [hset, hloop.1, hls]
  · rw [hset, hloop.2]
    simp [clampedLoop]

/-- Witness for the amended C7 at the concrete playing state c7State. -/
theorem c7_loop_change_interrupts_and_reschedules_witness :
    c7State.isPlaying = true ∧ c7State.hasFile = true ∧
    0 < totalFramesOf (clampedLoop 2 4 c7State) ∧
    ((setLoopPoints 2 4 c7State).queue.length ≤ 2 ∧
      ((setLoopPoints 2 4 c7State).queue.getD 0 default).startingFrame =
        swiftInt (max 0 2 * c7State.sampleRate) ∧
      (setLoopPoints 2 4 c7State).loopStartSec = max 0 2 ∧
      (setLoopPoints 2 4 c7State).loopEndSec = max (max 0 2) 4) :=
  ⟨by decide, by decide, by with_unfolding_all decide,
    c7_loop_change_interrupts_and_reschedules c7State 2 4 (by decide)
      (by decide) (by with_unfolding_all decide)⟩

/-- C9: invalid parameters are clamped before scheduling: after
setLoopPoints the loop region satisfies 0 at most loopStart at most
loopEnd (an end at or below the start is pulled up to the start); when the
loop region is at most 0 frames long, scheduleNextCycle schedules nothing
and changes nothing; and after setRate with any argument, including
nonpositive ones, the effective rate lies in the positive range from 1/2
to 2. -/
theorem c9_invalid_params_clamped (s e r : ℚ) (stA stB stC : State)
    (i : Bool) (hB : totalFramesOf stB ≤ 0) :
    (0 ≤ (setLoopPoints s e stA).loopStartSec ∧
      (setLoopPoints s e stA).loopStartSec ≤ (setLoopPoints s e stA).loopEndSec) ∧
    scheduleNextCycle i stB = stB ∧
    (0 < (setRate r stC).rate ∧ 1 / 2 ≤ (setRate r stC).rate ∧
      (setRate r stC).rate ≤ 2) := by
  have hloop := scheduleNextCycle_loop_fields true (clampedLoop s e stA)
  have hls : (setLoopPoints s e stA).loopStartSec = max 0 s := by
    simp only [setLoopPoints]
    split
    · rw [hloop.1]
      simp [clampedLoop]
    · simp [clampedLoop]
  have hle : (setLoopPoints s e stA).loopEndSec = max (max 0 s) e := by
    simp only [setLoopPoints]
    split
    · rw [hloop.2]
      simp [clampedLoop]
    · simp [clampedLoop]
  refine ⟨⟨?_, ?_⟩, ?_, ?_, ?_, ?_⟩
  · rw [hls]
    exact le_max_left 0 s
  · rw [hls, hle]
    exact le_max_left (max 0 s) e
  · unfold scheduleNextCycle
    by_cases hf : stB.hasFile = false
    · rw [if_pos hf]
    · rw [if_neg hf, if_pos hB]
  · show 0 < max (1 / 2) (min 2 r)
    exact lt_of_lt_of_le (by norm_num) (le_max_left _ _)
  · exact le_max_left _ _
  · exact max_le (by norm_num) (min_le_left _ _)

/-- Witness for C9 with inverted loop points and a negative rate at the
concrete state c9State, whose loop region is empty. -/
theorem c9_invalid_params_clamped_witness :
    totalFramesOf c9State ≤ 0 ∧
    ((0 ≤ (setLoopPoints (-3) (-5) c9State).loopStartSec ∧
      (setLoopPoints (-3) (-5) c9State).loopStartSec ≤
        (setLoopPoints (-3) (-5) c9State).loopEndSec) ∧
    scheduleNextCycle true c9State = c9State ∧
    (0 < (setRate (-7) c9State).rate ∧ 1 / 2 ≤ (setRate (-7) c9State).rate ∧
      (setRate (-7) c9State).rate ≤ 2)) :=
  ⟨by with_unfolding_all decide,
    c9_invalid_params_clamped (-3) (-5) (-7) c9State c9State c9State true
      (by with_unfolding_all decide)⟩

end NativeLooper

/-- C6: with looping disabled, when the buffer-scheduling engine reaches
the end of the asset its single finished source fires the onended handler,
which emits exactly one ended notification, clears isPlaying and pins the
reported position at 0 for every later clock reading — the cursor stops
advancing; and the sample-accurate processor, once the integer cursor has
reached the buffer length with a nonnegative rate, writes silence for
every remaining frame of each block instead of erroring. -/
theorem c6_single_ended_notification_then_silence
    (stw : WebAudioLooper.State) (st : LoopProcessor.State) (n j channel : ℕ)
    (hL : st.isLooping = false) (hr : 0 ≤ st.playbackRate)
    (hc : (st.bufferLength : ℤ) ≤ ⌊st.currentSample⌋) :
    (WebAudioLooper.onendedHandler stw).2 = 1 ∧
    (WebAudioLooper.onendedHandler stw).1.isPlaying = false ∧
    (∀ now, WebAudioLooper.getCurrentTime now
        (WebAudioLooper.onendedHandler stw).1 = 0) ∧
    ((LoopProcessor.processBlock st n).2.getD j (fun _ => 0)) channel = 0 := by
  refine ⟨rfl, rfl, ?_,
    LoopProcessor.processBlock_silent st n hL hr hc j channel⟩
  intro now
  simp [WebAudioLooper.getCurrentTime, WebAudioLooper.onendedHandler]

/-- Witness for C6 at the concrete states c6WState and c6PState. -/
theorem c6_single_ended_notification_then_silence_witness :
    LoopProcessor.c6PState.isLooping = false ∧
    0 ≤ LoopProcessor.c6PState.playbackRate ∧
    (LoopProcessor.c6PState.bufferLength : ℤ) ≤
      ⌊LoopProcessor.c6PState.currentSample⌋ ∧
    ((WebAudioLooper.onendedHandler WebAudioLooper.c6WState).2 = 1 ∧
      (WebAudioLooper.onendedHandler WebAudioLooper.c6WState).1.isPlaying = false ∧
      (∀ now, WebAudioLooper.getCurrentTime now
          (WebAudioLooper.onendedHandler WebAudioLooper.c6WState).1 = 0) ∧
      ((LoopProcessor.processBlock LoopProcessor.c6PState 2).2.getD 0
        (fun _ => 0)) 0 = 0) :=
  ⟨by decide, by decide, by with_unfolding_all decide,
    c6_single_ended_notification_then_silence WebAudioLooper.c6WState
      LoopProcessor.c6PState 2 0 0 (by decide) (by decide)
      (by with_unfolding_all decide)⟩

/-- C8 fails as stated: the buffer-scheduling looper stores the seek time
without any clamp, so seeking to -1 while paused leaves the reported
position at -1, not 0. -/
theorem c8_counterexample_webaudio_seek_unclamped :
    (WebAudioLooper.seek 3 0 (-1) WebAudioLooper.c8WState).pausedAt = -1 ∧
    WebAudioLooper.getCurrentTime 0
      (WebAudioLooper.seek 3 0 (-1) WebAudioLooper.c8WState) = -1 ∧
    WebAudioLooper.getCurrentTime 0
      (WebAudioLooper.seek 3 0 (-1) WebAudioLooper.c8WState) ≠ 0 := by
  with_unfolding_all decide

/-- C8 amended: the sample-accurate processor clamps seek into the buffer
(negative requests land at 0, requests past the end land within the buffer
length); the native looper clamps the requested time to at least 0 and
then into the loop region, so the resumed position is nonnegative, at most
the asset duration, and a negative request lands at loopStart (0 only when
loopStart is 0), with the first rescheduled segment starting at the
clamped frame; the buffer-scheduling looper stores the requested time
unclamped. -/
theorem c8_seek_clamping_per_engine
    (stp : LoopProcessor.State) (sample : ℚ)
    (stn : NativeLooper.State) (t : ℚ)
    (stw : WebAudioLooper.State) (tw : ℚ) (fuel : ℕ) (now : ℚ)
    (hn0 : 0 ≤ stn.loopStartSec) (hn1 : stn.loopStartSec ≤ stn.loopEndSec)
    (hn2 : stn.loopEndSec ≤ (stn.fileLength : ℚ) / stn.sampleRate)
    (hfile : stn.hasFile = true)
    (hpos : 0 < max 0 (NativeLooper.endFrameOf stn -
      NativeLooper.swiftInt (NativeLooper.seekTargetSec t stn * stn.sampleRate) -
      NativeLooper.cfFramesOf stn))
    (hw : stw.isPlaying = false) :
    (0 ≤ (LoopProcessor.seek stp sample).currentSample ∧
      (LoopProcessor.seek stp sample).currentSample ≤ (stp.bufferLength : ℚ) ∧
      (sample < 0 → (LoopProcessor.seek stp sample).currentSample = 0)) ∧
    (0 ≤ NativeLooper.seekTargetSec t stn ∧
      NativeLooper.seekTargetSec t stn ≤ (stn.fileLength : ℚ) / stn.sampleRate ∧
      (t < 0 → NativeLooper.seekTargetSec t stn = stn.loopStartSec) ∧
      ((NativeLooper.seek t stn).queue.getD 0 default).startingFrame =
        NativeLooper.swiftInt (NativeLooper.seekTargetSec t stn * stn.sampleRate)) ∧
    (WebAudioLooper.seek fuel now tw stw).pausedAt = tw := by
  refine ⟨⟨?_, ?_, ?_⟩, ⟨?_, ?_, ?_, ?_⟩, ?_⟩
  · exact le_max_left _ _
  · show max 0 (min sample ((stp.bufferLength : ℚ) - 1)) ≤ (stp.bufferLength : ℚ)
    refine max_le (Nat.cast_nonneg _) (le_trans (min_le_right _ _) ?_)
    linarith
  · intro hneg
    show max 0 (min sample ((stp.bufferLength : ℚ) - 1)) = 0
    have : min sample ((stp.bufferLength : ℚ) - 1) ≤ sample := min_le_left _ _
    exact max_eq_left (by linarith)
  · show 0 ≤ min (max (max 0 t) stn.loopStartSec) stn.loopEndSec
    exact le_min (le_trans hn0 (le_max_right _ _)) (le_trans hn0 hn1)
  · exact le_trans (min_le_right _ _) hn2
  · intro hneg
    show min (max (max 0 t) stn.loopStartSec) stn.loopEndSec = stn.loopStartSec
    rw [max_eq_left hneg.le, max_eq_right hn0, min_eq_left hn1]
  · unfold NativeLooper.seek NativeLooper.scheduleAt
    rw [if_neg (by simp [hfile])]
    dsimp only
    have hpos2 : 0 < max 0 (NativeLooper.endFrameOf stn -
        NativeLooper.swiftInt
          (NativeLooper.scheduleAtTarget (max 0 t) stn * stn.sampleRate) -
        NativeLooper.cfFramesOf stn) := hpos
    rw [if_pos hpos2]
    rfl
  · simp [WebAudioLooper.seek, hw]

/-- Witness for the amended C8 at concrete states and request times for
all three engines. -/
theorem c8_seek_clamping_per_engine_witness :
    0 ≤ NativeLooper.c8NState.loopStartSec ∧
    NativeLooper.c8NState.loopStartSec ≤ NativeLooper.c8NState.loopEndSec ∧
    NativeLooper.c8NState.loopEndSec ≤
      (NativeLooper.c8NState.fileLength : ℚ) / NativeLooper.c8NState.sampleRate ∧
    NativeLooper.c8NState.hasFile = true ∧
    0 < max 0 (NativeLooper.endFrameOf NativeLooper.c8NState -
      NativeLooper.swiftInt (NativeLooper.seekTargetSec (-5) NativeLooper.c8NState *
        NativeLooper.c8NState.sampleRate) -
      NativeLooper.cfFramesOf NativeLooper.c8NState) ∧
    WebAudioLooper.c8WState.isPlaying = false ∧
    ((0 ≤ (LoopProcessor.seek LoopProcessor.c8PState (-2)).currentSample ∧
      (LoopProcessor.seek LoopProcessor.c8PState (-2)).currentSample ≤
        (LoopProcessor.c8PState.bufferLength : ℚ) ∧
      ((-2 : ℚ) < 0 →
        (LoopProcessor.seek LoopProcessor.c8PState (-2)).currentSample = 0)) ∧
    (0 ≤ NativeLooper.seekTargetSec (-5) NativeLooper.c8NState ∧
      NativeLooper.seekTargetSec (-5) NativeLooper.c8NState ≤
        (NativeLooper.c8NState.fileLength : ℚ) / NativeLooper.c8NState.sampleRate ∧
      ((-5 : ℚ) < 0 → NativeLooper.seekTargetSec (-5) NativeLooper.c8NState =
        NativeLooper.c8NState.loopStartSec) ∧
      ((NativeLooper.seek (-5) NativeLooper.c8NState).queue.getD 0
          default).startingFrame =
        NativeLooper.swiftInt (NativeLooper.seekTargetSec (-5) NativeLooper.c8NState *
          NativeLooper.c8NState.sampleRate)) ∧
    (WebAudioLooper.seek 1 0 7 WebAudioLooper.c8WState).pausedAt = 7) :=
  ⟨by decide, by decide, by with_unfolding_all decide, by decide,
    by with_unfolding_all decide, by decide,
    c8_seek_clamping_per_engine LoopProcessor.c8PState (-2)
      NativeLooper.c8NState (-5) WebAudioLooper.c8WState 7 1 0
      (by decide) (by decide) (by with_unfolding_all decide) (by decide)
      (by with_unfolding_all decide) (by decide)⟩
